import Mathlib

/-!
Shallow embedding of the ping-py-server monitoring engine
(`src/ping/monitor_service.py`, with the device model from
`src/ping/models/monitor_device.py` and the store operations from
`src/ping/database_service.py`), together with theorems settling the
specification claims about the probe executor, the trigger evaluator,
the cleanup pass and template rendering.
-/

namespace PingPy

/-! ## Python string helpers -/

/-- Left-to-right, non-overlapping replacement of every occurrence of `pat`
by `rep` in a character list, exactly as Python `str.replace` behaves for a
non-empty pattern.  The fuel argument is instantiated with the length of the
input, which suffices because every step consumes at least one character. -/
def replaceListAux (pat rep : List Char) : Nat → List Char → List Char
  | _, [] => []
  | 0, s => s
  | fuel + 1, c :: rest =>
    if pat.isPrefixOf (c :: rest) then
      rep ++ replaceListAux pat rep fuel (List.drop (pat.length - 1) rest)
    else
      c :: replaceListAux pat rep fuel rest

/-- Python `s.replace(pat, rep)`.  Every call site in the embedded source
uses a non-empty pattern, so the empty-pattern case (where Python would
interleave `rep` between characters) is mapped to the identity. -/
def pyReplace (s pat rep : String) : String :=
  if pat.isEmpty then s
  else String.mk (replaceListAux pat.toList rep.toList s.toList.length s.toList)

/-- Python `int(s)` restricted to unsigned decimal digit strings: `some`
of the value on a non-empty all-digit string, `none` (a raised
`ValueError`) otherwise.  The additional forms Python accepts — signs,
surrounding whitespace, digit-group underscores — never occur in the
`HH:MM` window data this parser is applied to. -/
def pyInt? (s : String) : Option Nat :=
  match s.toList with
  | [] => none
  | l =>
    if l.all (fun c => c.isDigit) then
      some (l.foldl (fun n c => n * 10 + (c.toNat - 48)) 0)
    else none

/-- Python f-string conversion of an `Optional[int]` value. -/
def pyStrOptInt : Option Int → String
  | none => "None"
  | some n => toString n

/-- Python f-string conversion of an `Optional[str]` value. -/
def pyStrOptStr : Option String → String
  | none => "None"
  | some s => s

/-! ## Data model (`src/ping/models/monitor_device.py`) -/

/-- The `MonitorDevice` ORM entity.  Column types follow the declared
SQLAlchemy model: `port` is `Optional[int]`, `proto` and `comments` are
optional strings, the monitor window bounds are `HH:MM` strings. -/
structure MonitorDevice where
  id : Int
  name : String
  identifier : String
  port : Option Int
  proto : Option String
  persist : Bool
  monitor_trigger : String
  monitor_start_utc : String
  monitor_end_utc : String
  requested_by : String
  notify : String
  comments : Option String
  email_subject : String
  email_body : String
  been_notified : Bool
  deriving Repr, DecidableEq

/-! ## Probe executor (`can_connect`, monitor_service.py lines 52-84) -/

/-- Outcome of one `subprocess.run` invocation: either the child process
completed with a return code, or launching it raised an exception
(which the surrounding `except` clause turns into the UNKNOWN result). -/
inductive ProcResult where
  | completed (returncode : Int)
  | raised
  deriving Repr, DecidableEq

/-- The external processes the probe can launch: `/bin/ping` against an
identifier, and `/bin/nc` in TCP or UDP mode against identifier and port.
Each is an oracle supplied by the environment. -/
structure ProbeEnv where
  ping : String → ProcResult
  ncTcp : String → Int → ProcResult
  ncUdp : String → Int → ProcResult

/-- Body of `can_connect` after the device has been fetched, i.e. the
`try/except/else` block of monitor_service.py lines 65-84.

The Python code performs `match device.port:` with arms `None`, `"TCP"`,
`"UDP"` and `_`.  Since the `port` column is `Optional[int]`, a present
port is an `int` and compares unequal to the strings `"TCP"` and `"UDP"`,
so the two `nc` arms are unreachable: a device with a port set falls into
the wildcard arm, whose `ValueError` is caught by the `except` clause and
turned into the UNKNOWN result `None`. -/
def can_connect (env : ProbeEnv) (device : MonitorDevice) : Option Bool :=
  match device.port with
  | none =>
    match env.ping device.identifier with
    | ProcResult.completed rc => some (rc == 0)
    | ProcResult.raised => none
  | some _ => none

/-- `get_devices` builds the dict `{device.id: device for device in store}`
and `.get(device_id)` reads it: for duplicate ids the last entry wins. -/
def dict_get (store : List MonitorDevice) (device_id : Int) : Option MonitorDevice :=
  store.foldl (fun acc d => if d.id == device_id then some d else acc) none

/-- The full `can_connect` task (monitor_service.py lines 52-84): looks the
device up by id; an unknown id raises `ValueError` into the caller (modelled
as `Except.error`); otherwise the probe body runs and never raises. -/
def can_connect_task (env : ProbeEnv) (store : List MonitorDevice)
    (device_id : Int) : Except String (Int × Option Bool) :=
  match dict_get store device_id with
  | none => Except.error "Invalid device ID provided to check connecticity"
  | some device => Except.ok (device_id, can_connect env device)

/-! ## Trigger evaluator (`process_notification`, monitor_service.py lines 86-167) -/

/-- The template substitution table and loop of `format_message`
(monitor_service.py lines 88-103): the seven placeholders are replaced
sequentially, in dict insertion order. -/
def format_message (device : MonitorDevice) (str_template : String) : String :=
  let template_mappings : List (String × String) :=
    [("$name", device.name),
     ("$identifier", device.identifier),
     ("$port", pyStrOptInt device.port),
     ("$protocol", pyStrOptStr device.proto),
     ("$trigger", device.monitor_trigger),
     ("$requested_by", device.requested_by),
     ("$comments", pyStrOptStr device.comments)]
  template_mappings.foldl
    (fun formatted_message mv => pyReplace formatted_message mv.1 mv.2)
    str_template

/-- Decision reached by one evaluation of `process_notification`. -/
inductive Decision where
  | NOTIFY (subject body : String)
  | NO_OP
  deriving Repr, DecidableEq

/-- Observable outcome of one `process_notification` run: the decision, how
many deliveries were attempted and how many succeeded, the device record as
it stands afterwards, and the list of devices passed to
`update_devices` (empty when no store write happens). -/
structure EvalOutcome where
  decision : Decision
  attempts : Nat
  successes : Nat
  device : MonitorDevice
  writes : List MonitorDevice
  deriving Repr, DecidableEq

/-- The delivery block of monitor_service.py lines 140-165: one SMTP send is
attempted; on success the `been_notified` flag is flipped (reset for a
persistent, already-notified device, set otherwise) and the updated device
is written to the store; on failure the device is left untouched and no
store write happens. `smtpOk` is the environment oracle for the send. -/
def sendAndUpdate (smtpOk : Bool) (device : MonitorDevice)
    (email_subject_text email_body_text : String) : EvalOutcome :=
  if smtpOk then
    let device' :=
      if device.persist && device.been_notified then
        { device with been_notified := false }
      else
        { device with been_notified := true }
    { decision := Decision.NOTIFY email_subject_text email_body_text,
      attempts := 1, successes := 1, device := device', writes := [device'] }
  else
    { decision := Decision.NOTIFY email_subject_text email_body_text,
      attempts := 1, successes := 0, device := device, writes := [] }

/-- `process_notification` for a fetched device (monitor_service.py lines
105-167).  `canConnect = none` models the UNKNOWN probe result, on which the
code raises `ValueError` (overall result `none`); likewise a window string
on which Python `int()` would raise yields `none`.  `now_hhmm` is
`hour * 100 + minute` of the current UTC time. -/
def process_notification (smtpOk : Bool) (now_hhmm : Nat)
    (device : MonitorDevice) (canConnect : Option Bool) : Option EvalOutcome :=
  match canConnect with
  | none => none
  | some cc =>
    match pyInt? (pyReplace device.monitor_start_utc ":" ""),
          pyInt? (pyReplace device.monitor_end_utc ":" "") with
    | some trigger_start_utc, some trigger_end_utc =>
      if now_hhmm ≥ trigger_start_utc && now_hhmm ≤ trigger_end_utc then
        if ((cc && device.monitor_trigger == "ONLINE")
            || (!cc && device.monitor_trigger == "OFFLINE"))
            && !device.been_notified then
          let email_subject_text :=
            "[Ping] " ++ format_message device device.email_subject
          let email_body_text := format_message device device.email_body
          some (sendAndUpdate smtpOk device email_subject_text email_body_text)
        else if device.persist
            && ((cc && device.monitor_trigger == "OFFLINE")
                || (!cc && device.monitor_trigger == "ONLINE"))
            && device.been_notified then
          let state := if cc then "ONLINE" else "OFFLINE"
          let email_subject_text := "[Ping] " ++ device.name ++ " is now " ++ state
          let email_body_text := device.name ++ " is now back " ++ state ++ "."
          some (sendAndUpdate smtpOk device email_subject_text email_body_text)
        else
          some { decision := Decision.NO_OP, attempts := 0, successes := 0,
                 device := device, writes := [] }
      else
        some { decision := Decision.NO_OP, attempts := 0, successes := 0,
               device := device, writes := [] }
    | _, _ => none

/-! ## Cleanup (`cleanup_monitor`, monitor_service.py lines 41-50) -/

/-- Predicate of the inner `should_cleanup` helper. -/
def should_cleanup (device : MonitorDevice) : Bool :=
  if device.been_notified && !device.persist then true else false

/-- `cleanup_monitor`: collect the ids of devices satisfying
`should_cleanup` over the freshly re-read store, then delete by id. -/
def cleanup_monitor (store : List MonitorDevice) : List MonitorDevice :=
  let devices_pending_removal :=
    (store.filter (fun d => should_cleanup d)).map (fun d => d.id)
  store.filter (fun d => !(devices_pending_removal.contains d.id))

/-! ## Store update (`DatabaseService.update_devices`, database_service.py lines 37-53) -/

/-- `session.merge` of one full `MonitorDevice` entity: replace the row with
the matching primary key, or insert when absent. -/
def merge_device (store : List MonitorDevice) (device : MonitorDevice) :
    List MonitorDevice :=
  if store.any (fun x => x.id == device.id) then
    store.map (fun x => if x.id == device.id then device else x)
  else
    store ++ [device]

/-- `DatabaseService.update_devices` restricted to full entities: merge each
device of the list in order, then commit. -/
def update_devices (store : List MonitorDevice) (devices : List MonitorDevice) :
    List MonitorDevice :=
  devices.foldl merge_device store

/-! ## Sample devices used by witnesses and counterexamples -/

/-- A one-shot OFFLINE-trigger ICMP device with an all-day window. -/
def sampleOffline : MonitorDevice :=
  { id := 1, name := "srv", identifier := "10.0.0.1", port := none,
    proto := none, persist := false, monitor_trigger := "OFFLINE",
    monitor_start_utc := "00:00", monitor_end_utc := "23:59",
    requested_by := "ops", notify := "ops@example.com", comments := none,
    email_subject := "Device down", email_body := "It is down.",
    been_notified := false }

/-- A persistent ONLINE-trigger device that has already notified. -/
def samplePersist : MonitorDevice :=
  { id := 2, name := "gw", identifier := "10.0.0.2", port := none,
    proto := none, persist := true, monitor_trigger := "ONLINE",
    monitor_start_utc := "08:00", monitor_end_utc := "17:00",
    requested_by := "ops", notify := "ops@example.com", comments := none,
    email_subject := "Gateway up", email_body := "The gateway is up.",
    been_notified := true }

/-- A TCP device with a numeric port, as the data model prescribes. -/
def sampleTcp : MonitorDevice :=
  { id := 3, name := "web", identifier := "example.com", port := some 8080,
    proto := some "TCP", persist := true, monitor_trigger := "OFFLINE",
    monitor_start_utc := "00:00", monitor_end_utc := "23:59",
    requested_by := "ops", notify := "ops@example.com", comments := none,
    email_subject := "Web down", email_body := "The web server is down.",
    been_notified := false }

/-- An environment in which every launched process reports success. -/
def allOkEnv : ProbeEnv :=
  { ping := fun _ => ProcResult.completed 0,
    ncTcp := fun _ _ => ProcResult.completed 0,
    ncUdp := fun _ _ => ProcResult.completed 0 }

/-- An environment in which every launched process reports failure. -/
def allFailEnv : ProbeEnv :=
  { ping := fun _ => ProcResult.completed 1,
    ncTcp := fun _ _ => ProcResult.completed 1,
    ncUdp := fun _ _ => ProcResult.completed 1 }

/-- A device whose name itself contains the text of a later placeholder. -/
def cascadeDevice : MonitorDevice :=
  { id := 4, name := "$port", identifier := "h1", port := some 80,
    proto := some "TCP", persist := false, monitor_trigger := "OFFLINE",
    monitor_start_utc := "00:00", monitor_end_utc := "23:59",
    requested_by := "ops", notify := "ops@example.com", comments := none,
    email_subject := "s", email_body := "b", been_notified := false }

/-- Two device records agree on every field other than `been_notified`. -/
def agreesExceptNotified (a b : MonitorDevice) : Prop :=
  a.id = b.id ∧ a.name = b.name ∧ a.identifier = b.identifier ∧
  a.port = b.port ∧ a.proto = b.proto ∧ a.persist = b.persist ∧
  a.monitor_trigger = b.monitor_trigger ∧
  a.monitor_start_utc = b.monitor_start_utc ∧
  a.monitor_end_utc = b.monitor_end_utc ∧
  a.requested_by = b.requested_by ∧ a.notify = b.notify ∧
  a.comments = b.comments ∧ a.email_subject = b.email_subject ∧
  a.email_body = b.email_body

/-- The no-operation outcome of one evaluation on `device`. -/
def noopOutcome (device : MonitorDevice) : EvalOutcome :=
  { decision := Decision.NO_OP, attempts := 0, successes := 0,
    device := device, writes := [] }

/-! ## Helper lemmas -/

/-- Every defined run of `process_notification` either takes one of the two
`NO_OP` exits or goes through the delivery block `sendAndUpdate`. -/
theorem process_notification_shape (smtpOk : Bool) (now : Nat)
    (device : MonitorDevice) (cc : Bool) (o : EvalOutcome)
    (h : process_notification smtpOk now device (some cc) = some o) :
    o = noopOutcome device ∨ ∃ s b, o = sendAndUpdate smtpOk device s b := by
  unfold process_notification at h
  rcases hps : pyInt? (pyReplace device.monitor_start_utc ":" "") with _ | ts <;>
    rw [hps] at h
  · exact absurd h (by simp)
  rcases hpe : pyInt? (pyReplace device.monitor_end_utc ":" "") with _ | te <;>
    rw [hpe] at h
  · exact absurd h (by simp)
  simp only [ge_iff_le] at h
  split at h
  · split at h
    · exact Or.inr ⟨_, _, (Option.some.injEq _ _ ▸ h).symm⟩
    · split at h
      · exact Or.inr ⟨_, _, (Option.some.injEq _ _ ▸ h).symm⟩
      · exact Or.inl (Option.some.injEq _ _ ▸ h).symm
  · exact Or.inl (Option.some.injEq _ _ ▸ h).symm

/-- When the window parses, the time is inside it, reachability matches the
trigger and the flag is clear, the evaluation reaches the delivery block
with the template-rendered message. -/
theorem forward_edge_eval (smtpOk : Bool) (now : Nat) (device : MonitorDevice)
    (cc : Bool) (ts te : Nat)
    (hs : pyInt? (pyReplace device.monitor_start_utc ":" "") = some ts)
    (he : pyInt? (pyReplace device.monitor_end_utc ":" "") = some te)
    (hw1 : ts ≤ now) (hw2 : now ≤ te)
    (htm : (cc && device.monitor_trigger == "ONLINE"
            || !cc && device.monitor_trigger == "OFFLINE") = true)
    (hn : device.been_notified = false) :
    process_notification smtpOk now device (some cc) =
      some (sendAndUpdate smtpOk device
        ("[Ping] " ++ format_message device device.email_subject)
        (format_message device device.email_body)) := by
  unfold process_notification
  simp only [hs, he, ge_iff_le]
  simp [hw1, hw2, htm, hn]

/-- When the window parses, the time is inside it, the device is persistent,
reachability is opposite to the trigger and the flag is set, the evaluation
reaches the delivery block with the synthesized restoration message. -/
theorem reverse_edge_eval (smtpOk : Bool) (now : Nat) (device : MonitorDevice)
    (cc : Bool) (ts te : Nat)
    (hs : pyInt? (pyReplace device.monitor_start_utc ":" "") = some ts)
    (he : pyInt? (pyReplace device.monitor_end_utc ":" "") = some te)
    (hw1 : ts ≤ now) (hw2 : now ≤ te)
    (hrev : (cc && device.monitor_trigger == "OFFLINE"
             || !cc && device.monitor_trigger == "ONLINE") = true)
    (hp : device.persist = true) (hn : device.been_notified = true) :
    process_notification smtpOk now device (some cc) =
      some (sendAndUpdate smtpOk device
        ("[Ping] " ++ device.name ++ " is now " ++ (if cc then "ONLINE" else "OFFLINE"))
        (device.name ++ " is now back " ++ (if cc then "ONLINE" else "OFFLINE") ++ ".")) := by
  unfold process_notification
  simp only [hs, he, ge_iff_le]
  simp [hw1, hw2, hrev, hp, hn]

/-- Once the flag is set, an evaluation whose reachability still matches the
trigger (so the reverse disjunction is false) is a no-op at any time. -/
theorem notified_matching_noop (smtpOk : Bool) (now : Nat)
    (device : MonitorDevice) (cc : Bool) (ts te : Nat)
    (hs : pyInt? (pyReplace device.monitor_start_utc ":" "") = some ts)
    (he : pyInt? (pyReplace device.monitor_end_utc ":" "") = some te)
    (hto : (cc && device.monitor_trigger == "OFFLINE"
            || !cc && device.monitor_trigger == "ONLINE") = false)
    (hn : device.been_notified = true) :
    process_notification smtpOk now device (some cc) =
      some (noopOutcome device) := by
  unfold process_notification
  simp only [hs, he]
  split
  · simp [hn, hto, noopOutcome]
  · rfl

/-- A store with no qualifying device is left untouched by cleanup. -/
theorem cleanup_noop_of_no_qualifier (l : List MonitorDevice)
    (h : ∀ d ∈ l, should_cleanup d = false) : cleanup_monitor l = l := by
  unfold cleanup_monitor
  have h0 : l.filter (fun d => should_cleanup d) = [] :=
    List.filter_eq_nil_iff.mpr (by intro a ha; simp [h a ha])
  rw [h0]
  exact List.filter_eq_self.mpr (fun a _ => rfl)

/-! ## Claim theorems -/

/-- C1: forward edge — when the current hhmm time is inside the window, the
probe result matches the trigger (REACHABLE for ONLINE, UNREACHABLE for
OFFLINE), the flag is clear and the delivery succeeds, the evaluator
decides NOTIFY with the subject and body rendered from the device
templates, performs exactly one delivery, sets `been_notified` to true and
writes exactly the updated device to the store. -/
theorem C1_forward_edge_notifies (now : Nat) (device : MonitorDevice)
    (cc : Bool) (ts te : Nat)
    (hs : pyInt? (pyReplace device.monitor_start_utc ":" "") = some ts)
    (he : pyInt? (pyReplace device.monitor_end_utc ":" "") = some te)
    (hwin : ts ≤ now ∧ now ≤ te)
    (hmatch : (cc = true ∧ device.monitor_trigger = "ONLINE") ∨
              (cc = false ∧ device.monitor_trigger = "OFFLINE"))
    (hn : device.been_notified = false) :
    process_notification true now device (some cc) =
      some { decision := Decision.NOTIFY
               ("[Ping] " ++ format_message device device.email_subject)
               (format_message device device.email_body),
             attempts := 1, successes := 1,
             device := { device with been_notified := true },
             writes := [{ device with been_notified := true }] } := by
  have htm : (cc && device.monitor_trigger == "ONLINE"
              || !cc && device.monitor_trigger == "OFFLINE") = true := by
    rcases hmatch with ⟨rfl, h⟩ | ⟨rfl, h⟩ <;> simp [h]
  rw [forward_edge_eval true now device cc ts te hs he hwin.1 hwin.2 htm hn]
  simp [sendAndUpdate, hn]

/-- C1 witness: the sample one-shot OFFLINE device, unreachable at 12:00
inside its all-day window, with a successful delivery. -/
theorem C1_forward_edge_notifies_witness :
    process_notification true 1200 sampleOffline (some false) =
      some { decision := Decision.NOTIFY
               ("[Ping] " ++ format_message sampleOffline sampleOffline.email_subject)
               (format_message sampleOffline sampleOffline.email_body),
             attempts := 1, successes := 1,
             device := { sampleOffline with been_notified := true },
             writes := [{ sampleOffline with been_notified := true }] } :=
  C1_forward_edge_notifies 1200 sampleOffline false 0 2359 rfl rfl
    (by decide) (Or.inr ⟨rfl, rfl⟩) rfl

/-- C3: edge-triggered invariant — after a forward-edge NOTIFY with a
successful delivery, the next evaluation of the updated device with the
same trigger-matching reachability, at any time and whatever the SMTP
outcome, is the no-op outcome: NO_OP with zero delivery attempts. -/
theorem C3_no_duplicate_notification (now now2 : Nat) (smtp2 : Bool)
    (device : MonitorDevice) (cc : Bool) (ts te : Nat)
    (hs : pyInt? (pyReplace device.monitor_start_utc ":" "") = some ts)
    (he : pyInt? (pyReplace device.monitor_end_utc ":" "") = some te)
    (hwin : ts ≤ now ∧ now ≤ te)
    (hmatch : (cc = true ∧ device.monitor_trigger = "ONLINE") ∨
              (cc = false ∧ device.monitor_trigger = "OFFLINE"))
    (hn : device.been_notified = false) :
    (∃ s b, process_notification true now device (some cc) =
        some { decision := Decision.NOTIFY s b, attempts := 1, successes := 1,
               device := { device with been_notified := true },
               writes := [{ device with been_notified := true }] }) ∧
    process_notification smtp2 now2 { device with been_notified := true }
        (some cc) =
      some (noopOutcome { device with been_notified := true }) := by
  have htm : (cc && device.monitor_trigger == "ONLINE"
              || !cc && device.monitor_trigger == "OFFLINE") = true := by
    rcases hmatch with ⟨rfl, h⟩ | ⟨rfl, h⟩ <;> simp [h]
  have hto : (cc && device.monitor_trigger == "OFFLINE"
              || !cc && device.monitor_trigger == "ONLINE") = false := by
    rcases hmatch with ⟨rfl, h⟩ | ⟨rfl, h⟩ <;> simp [h]
  constructor
  · exact ⟨"[Ping] " ++ format_message device device.email_subject,
           format_message device device.email_body, by
      rw [forward_edge_eval true now device cc ts te hs he hwin.1 hwin.2 htm hn]
      simp [sendAndUpdate, hn]⟩
  · exact notified_matching_noop smtp2 now2 _ cc ts te hs he hto rfl

/-- C3 witness: the sample one-shot OFFLINE device, unreachable in two
consecutive cycles, notifies once and then no-ops. -/
theorem C3_no_duplicate_notification_witness :
    (∃ s b, process_notification true 1200 sampleOffline (some false) =
        some { decision := Decision.NOTIFY s b, attempts := 1, successes := 1,
               device := { sampleOffline with been_notified := true },
               writes := [{ sampleOffline with been_notified := true }] }) ∧
    process_notification true 1201 { sampleOffline with been_notified := true }
        (some false) =
      some (noopOutcome { sampleOffline with been_notified := true }) :=
  C3_no_duplicate_notification 1200 1201 true sampleOffline false 0 2359
    rfl rfl (by decide) (Or.inr ⟨rfl, rfl⟩) rfl

/-- C5: reverse edge — a persistent device whose flag is set and whose
fresh reachability is the opposite of its trigger notifies inside the
window with the synthesized restoration message built from the device name
and the new state (not from the templates) and, on successful delivery, has
its flag reset to false and exactly that update written; a non-persistent
device in the same situation is always a no-op. -/
theorem C5_reverse_edge :
    (∀ (now : Nat) (device : MonitorDevice) (cc : Bool) (ts te : Nat),
        pyInt? (pyReplace device.monitor_start_utc ":" "") = some ts →
        pyInt? (pyReplace device.monitor_end_utc ":" "") = some te →
        ts ≤ now → now ≤ te →
        device.persist = true →
        ((cc = true ∧ device.monitor_trigger = "OFFLINE") ∨
         (cc = false ∧ device.monitor_trigger = "ONLINE")) →
        device.been_notified = true →
        process_notification true now device (some cc) =
          some { decision := Decision.NOTIFY
                   ("[Ping] " ++ device.name ++ " is now "
                     ++ (if cc then "ONLINE" else "OFFLINE"))
                   (device.name ++ " is now back "
                     ++ (if cc then "ONLINE" else "OFFLINE") ++ "."),
                 attempts := 1, successes := 1,
                 device := { device with been_notified := false },
                 writes := [{ device with been_notified := false }] }) ∧
    (∀ (smtpOk : Bool) (now : Nat) (device : MonitorDevice) (cc : Bool)
        (ts te : Nat),
        pyInt? (pyReplace device.monitor_start_utc ":" "") = some ts →
        pyInt? (pyReplace device.monitor_end_utc ":" "") = some te →
        device.persist = false →
        ((cc = true ∧ device.monitor_trigger = "OFFLINE") ∨
         (cc = false ∧ device.monitor_trigger = "ONLINE")) →
        device.been_notified = true →
        process_notification smtpOk now device (some cc) =
          some (noopOutcome device)) := by
  constructor
  · intro now device cc ts te hs he hw1 hw2 hp hopp hn
    have hrev : (cc && device.monitor_trigger == "OFFLINE"
                 || !cc && device.monitor_trigger == "ONLINE") = true := by
      rcases hopp with ⟨rfl, h⟩ | ⟨rfl, h⟩ <;> simp [h]
    rw [reverse_edge_eval true now device cc ts te hs he hw1 hw2 hrev hp hn]
    simp [sendAndUpdate, hp, hn]
  · intro smtpOk now device cc ts te hs he hp hopp hn
    unfold process_notification
    simp only [hs, he]
    split
    · simp [hp, hn, noopOutcome]
    · rfl

/-- C4: for every device and every concrete reachability result, when the
current hhmm value is outside the `[window_start, window_end]` range the
evaluator returns the no-op outcome: no delivery attempt, the device record
untouched, and nothing written to the store — regardless of the trigger
match and of the `been_notified` flag. -/
theorem C4_outside_window_noop (smtpOk : Bool) (now : Nat)
    (device : MonitorDevice) (cc : Bool) (ts te : Nat)
    (hs : pyInt? (pyReplace device.monitor_start_utc ":" "") = some ts)
    (he : pyInt? (pyReplace device.monitor_end_utc ":" "") = some te)
    (hout : now < ts ∨ te < now) :
    process_notification smtpOk now device (some cc) =
      some (noopOutcome device) := by
  unfold process_notification
  simp only [hs, he]
  split
  · next hcond => exfalso; simp only [Bool.and_eq_true, decide_eq_true_eq] at hcond; omega
  · rfl

/-- C4 witness: a device with window 08:00-17:00 evaluated at 07:59. -/
theorem C4_outside_window_noop_witness :
    process_notification true 759 samplePersist (some true) =
      some (noopOutcome samplePersist) :=
  C4_outside_window_noop true 759 samplePersist true 800 1700 rfl rfl
    (Or.inl (by decide))

/-- C6: when the SMTP delivery fails, an evaluation that decided NOTIFY
leaves the device record unchanged, writes nothing to the store, and counts
zero successful deliveries, so the same edge is re-evaluated next cycle. -/
theorem C6_failed_delivery_mutates_nothing (now : Nat)
    (device : MonitorDevice) (cc : Bool) (o : EvalOutcome) (s b : String)
    (h : process_notification false now device (some cc) = some o)
    (hdec : o.decision = Decision.NOTIFY s b) :
    o.device = device ∧ o.writes = [] ∧ o.successes = 0 := by
  rcases process_notification_shape false now device cc o h with rfl | ⟨s', b', rfl⟩
  · simp [noopOutcome] at hdec
  · simp [sendAndUpdate]

/-- C6 witness: a failed delivery for the sample one-shot device. -/
theorem C6_failed_delivery_mutates_nothing_witness :
    EvalOutcome.device
        { decision := Decision.NOTIFY "[Ping] Device down" "It is down.",
          attempts := 1, successes := 0, device := sampleOffline,
          writes := [] } = sampleOffline ∧
      EvalOutcome.writes
        { decision := Decision.NOTIFY "[Ping] Device down" "It is down.",
          attempts := 1, successes := 0, device := sampleOffline,
          writes := [] } = [] ∧
      EvalOutcome.successes
        { decision := Decision.NOTIFY "[Ping] Device down" "It is down.",
          attempts := 1, successes := 0, device := sampleOffline,
          writes := [] } = 0 :=
  C6_failed_delivery_mutates_nothing 1200 sampleOffline false _
    "[Ping] Device down" "It is down." rfl rfl

/-- C7 (amended): for every device id present in the store, the probe task
never raises: it returns the id with the probe result, and every fault
inside the probing block — a launch failure of the external process or the
unrecognized-protocol wildcard arm — yields the first-class UNKNOWN result
`none`; an id absent from the store, however, raises into the caller. -/
theorem C7_probe_never_raises_for_known_device :
    (∀ env store device_id device,
        dict_get store device_id = some device →
        can_connect_task env store device_id =
          Except.ok (device_id, can_connect env device)) ∧
    (∀ env device, device.port = none →
        env.ping device.identifier = ProcResult.raised →
        can_connect env device = none) ∧
    (∀ env device p, device.port = some p → can_connect env device = none) := by
  refine ⟨fun env store i d h => ?_, fun env d hp hr => ?_, fun env d p hp => ?_⟩
  · simp [can_connect_task, h]
  · simp [can_connect, hp, hr]
  · simp [can_connect, hp]

/-- C7 counterexample: the probe task raises a `ValueError` into its caller
when the provided device id is not in the store, so it is not true that it
never raises for every input. -/
theorem C7_unknown_id_raises :
    can_connect_task allOkEnv [] 7 =
      Except.error "Invalid device ID provided to check connecticity" := rfl

/-- C10: template rendering replaces exactly the seven placeholders, in the
fixed order name, identifier, port, protocol, trigger, requested_by,
comments, leaving any other token verbatim; the substitution is sequential,
so a placeholder inside an already-substituted value (a device named
`$port`) is replaced by a later step. -/
theorem C10_sequential_placeholder_substitution :
    (∀ device str_template,
        format_message device str_template =
          pyReplace (pyReplace (pyReplace (pyReplace (pyReplace (pyReplace
            (pyReplace str_template "$name" device.name)
            "$identifier" device.identifier)
            "$port" (pyStrOptInt device.port))
            "$protocol" (pyStrOptStr device.proto))
            "$trigger" device.monitor_trigger)
            "$requested_by" device.requested_by)
            "$comments" (pyStrOptStr device.comments)) ∧
    format_message cascadeDevice "$name" = "80" ∧
    format_message sampleOffline "Alert: $unknown stays" = "Alert: $unknown stays" :=
  ⟨fun _ _ => rfl, rfl, rfl⟩

/-- C8: over a store whose primary keys are distinct, cleanup removes every
device with `persist = false` and `been_notified = true`, retains every
other device — in particular a persistent device with the flag set — and
running cleanup again deletes nothing. -/
theorem C8_cleanup_exactly_transient_notified (store : List MonitorDevice)
    (hnodup : (store.map (fun d => d.id)).Nodup) :
    (∀ d ∈ store, should_cleanup d = true → d ∉ cleanup_monitor store) ∧
    (∀ d ∈ store, should_cleanup d = false → d ∈ cleanup_monitor store) ∧
    cleanup_monitor (cleanup_monitor store) = cleanup_monitor store := by
  refine ⟨?_, ?_, ?_⟩
  · intro d hd hsc hmem
    have hR : d.id ∈ (store.filter (fun d => should_cleanup d)).map (fun d => d.id) :=
      List.mem_map.mpr ⟨d, List.mem_filter.mpr ⟨hd, hsc⟩, rfl⟩
    have hc := (List.mem_filter.mp hmem).2
    simp only [List.contains, Bool.not_eq_true', Bool.not_eq_true] at hc
    rw [← List.elem_iff] at hR
    simp [hR] at hc
    exact hc d hd hsc rfl
  · intro d hd hsc
    refine List.mem_filter.mpr ⟨hd, ?_⟩
    suffices hnot : d.id ∉ (store.filter (fun d => should_cleanup d)).map (fun d => d.id) by
      simp only [List.contains, Bool.not_eq_true', Bool.not_eq_true]
      rw [← List.elem_iff] at hnot
      simpa using hnot
    intro hR
    obtain ⟨e, heF, heid⟩ := List.mem_map.mp hR
    obtain ⟨heS, hesc⟩ := List.mem_filter.mp heF
    have hed : e = d := List.inj_on_of_nodup_map hnodup heS hd heid
    rw [hed] at hesc
    rw [hesc] at hsc
    exact absurd hsc (by decide)
  · apply cleanup_noop_of_no_qualifier
    intro d hd
    have hc := (List.mem_filter.mp hd).2
    have hdS := (List.mem_filter.mp hd).1
    by_contra hne
    have hsc : should_cleanup d = true := by
      cases h : should_cleanup d
      · exact absurd h hne
      · rfl
    have hR : d.id ∈ (store.filter (fun d => should_cleanup d)).map (fun d => d.id) :=
      List.mem_map.mpr ⟨d, List.mem_filter.mpr ⟨hdS, hsc⟩, rfl⟩
    simp only [List.contains, Bool.not_eq_true', Bool.not_eq_true] at hc
    rw [← List.elem_iff] at hR
    simp [hR] at hc
    exact hc d hdS hsc rfl

/-- C8 witness: of two devices with the flag set, the one-shot one is
deleted and the persistent one retained; re-running cleanup is a no-op. -/
theorem C8_cleanup_exactly_transient_notified_witness :
    ({ sampleOffline with been_notified := true } ∉
        cleanup_monitor [{ sampleOffline with been_notified := true }, samplePersist]) ∧
    samplePersist ∈
        cleanup_monitor [{ sampleOffline with been_notified := true }, samplePersist] ∧
    cleanup_monitor (cleanup_monitor
        [{ sampleOffline with been_notified := true }, samplePersist]) =
      cleanup_monitor [{ sampleOffline with been_notified := true }, samplePersist] :=
  ⟨(C8_cleanup_exactly_transient_notified _ (by decide)).1 _ (by simp) rfl,
   (C8_cleanup_exactly_transient_notified _ (by decide)).2.1 _ (by simp) rfl,
   (C8_cleanup_exactly_transient_notified _ (by decide)).2.2⟩

/-- C9: frame — every evaluation leaves every device field except
`been_notified` unchanged, everything it writes to the store is exactly the
evaluated device record, and a store update with one device leaves every
row with a different primary key in place. -/
theorem C9_only_notified_flag_mutated :
    (∀ (smtpOk : Bool) (now : Nat) (device : MonitorDevice) (cc : Bool)
        (o : EvalOutcome),
        process_notification smtpOk now device (some cc) = some o →
        agreesExceptNotified device o.device ∧ ∀ w ∈ o.writes, w = o.device) ∧
    (∀ (store : List MonitorDevice) (d x : MonitorDevice),
        x ∈ store → x.id ≠ d.id → x ∈ update_devices store [d]) := by
  constructor
  · intro smtpOk now device cc o h
    rcases process_notification_shape smtpOk now device cc o h with rfl | ⟨s, b, rfl⟩
    · exact ⟨by simp [noopOutcome, agreesExceptNotified], by simp [noopOutcome]⟩
    · cases smtpOk <;> constructor
      · simp [sendAndUpdate, agreesExceptNotified]
      · simp [sendAndUpdate]
      · unfold sendAndUpdate
        split
        · split <;> simp [agreesExceptNotified]
        · simp [agreesExceptNotified]
      · unfold sendAndUpdate
        split <;> simp
  · intro store d x hx hne
    unfold update_devices
    simp only [List.foldl_cons, List.foldl_nil]
    unfold merge_device
    split
    · exact List.mem_map.mpr ⟨x, hx, by simp [hne]⟩
    · exact List.mem_append_left _ hx

/-- C2 (the code as written): for a device with `proto = TCP` and a numeric
port, the probe returns UNKNOWN whatever the network would answer — in
particular even in an environment where every connection attempt succeeds —
because the `match` statement inspects the `port` column, whose integer
value never equals the string patterns `TCP` and `UDP`, so no socket is
ever opened. -/
theorem C2_tcp_probe_never_attempted :
    can_connect allOkEnv sampleTcp = none ∧
    can_connect allFailEnv sampleTcp = none ∧
    (∀ env, can_connect env sampleTcp = none) :=
  ⟨rfl, rfl, fun _ => rfl⟩

end PingPy
